import Mathlib

/-!
# Verification of the dream-forge-web mesh optimization core

Shallow embedding of the mesh analysis / repair / transform pipeline found in
`src/functions-python/main.py` (the cloud function `trimesh_optimize` and the
scoring function `analyze_mesh_issues`) and
`src/functions/scripts/trimesh_optimize.py` (the script pipeline
`optimize_mesh`, `apply_target_size`, `fit_to_print_bed`, `analyze_only`).

Python floats are modelled as rationals (`ℚ`); the trimesh library is the
external geometry backend, so attributes it computes (watertightness,
degenerate-face count, the normals consistency check) appear as input fields,
and the effect of each library repair call is a parameter of type
`Mesh → Except String Mesh` whose `.error` case models a raised Python
exception escaping that call.
-/

namespace DreamForge

/-- A vertex: a 3D point with rational coordinates (models float64 coords). -/
abbrev Point3 : Type := ℚ × ℚ × ℚ

/-- The mesh state the pipeline mutates: the vertex list plus the
`is_watertight` attribute trimesh derives from the face topology (faces and
topology are owned by the trimesh backend, which is outside `src/`; the
pipeline only reads this boolean from it). -/
structure Mesh where
  verts : List Point3
  watertight : Bool
deriving DecidableEq

/-- Minimum of a list of rationals (`0` for the empty list, which the
pipeline never produces: trimesh refuses meshes with no vertices). -/
def minList : List ℚ → ℚ
  | [] => 0
  | x :: xs => xs.foldl min x

/-- Maximum of a list of rationals (`0` for the empty list). -/
def maxList : List ℚ → ℚ
  | [] => 0
  | x :: xs => xs.foldl max x

/-- Per-axis extent `bounds[1] - bounds[0]` as computed by
`mesh.bounds` / `mesh.extents` in both source files. -/
def extAxis (l : List ℚ) : ℚ := maxList l - minList l

/-- x-coordinates of a mesh. -/
def xsOf (m : Mesh) : List ℚ := m.verts.map (fun p => p.1)

/-- y-coordinates of a mesh. -/
def ysOf (m : Mesh) : List ℚ := m.verts.map (fun p => p.2.1)

/-- z-coordinates of a mesh. -/
def zsOf (m : Mesh) : List ℚ := m.verts.map (fun p => p.2.2)

/-- Models `mesh.extents`: per-axis (width, height, depth) of the bounding box. -/
def extents (m : Mesh) : ℚ × ℚ × ℚ :=
  (extAxis (xsOf m), extAxis (ysOf m), extAxis (zsOf m))

/-- Models `mesh.apply_scale(f)`: multiply every vertex coordinate by `f`.
Watertightness is a topological property, unaffected by scaling. -/
def scaleMesh (f : ℚ) (m : Mesh) : Mesh :=
  { verts := m.verts.map (fun p => (f * p.1, f * p.2.1, f * p.2.2)),
    watertight := m.watertight }

/-- Translate every vertex by `(dx, dy, dz)` (models `mesh.vertices -= c`
style numpy broadcasts in the centering code). -/
def translateMesh (d : Point3) (m : Mesh) : Mesh :=
  { verts := m.verts.map (fun p => (p.1 + d.1, p.2.1 + d.2.1, p.2.2 + d.2.2)),
    watertight := m.watertight }

/-- Modelled from the spec: the centroid, "mean vertex position" (§4.1);
`mesh.centroid` is computed inside the trimesh backend, not in `src/`.
No claim depends on its exact value (translations do not change extents). -/
def centroid (m : Mesh) : Point3 :=
  ((xsOf m).sum / m.verts.length, (ysOf m).sum / m.verts.length,
   (zsOf m).sum / m.verts.length)

/-- The centering/grounding transform common to both pipelines:
`mesh.vertices -= mesh.centroid` then `mesh.vertices[:, 2] -= mesh.bounds[0, 2]`
(`main.py` lines 320-322, `trimesh_optimize.py` `center_mesh` lines 129-136). -/
def centerAndGround (m : Mesh) : Mesh :=
  let c := centroid m
  let m1 := translateMesh (-c.1, -c.2.1, -c.2.2) m
  translateMesh (0, 0, -(minList (zsOf m1))) m1

/- ### Analysis and printability scoring -/

/-- Largest of the three extents (`max(extents)` in `analyze_mesh_issues`). -/
def maxOf3 (e : ℚ × ℚ × ℚ) : ℚ := max e.1 (max e.2.1 e.2.2)

/-- Smallest of the three extents (`min(extents)`). -/
def minOf3 (e : ℚ × ℚ × ℚ) : ℚ := min e.1 (min e.2.1 e.2.2)

/-- The trimesh attributes `analyze_mesh_issues` (main.py lines 50-113)
reads: `is_watertight`, the count of faces with area below `1e-10`
(`np.sum(face_areas < 1e-10)`), `len(mesh.faces)`, the outcome of the
normals comparison (`some b`: the `allclose` check ran and `b` says the
normals differed after `fix_normals`; `none`: that check raised and the
`except` swallowed it), and `mesh.extents`. -/
structure AnalysisInput where
  is_watertight : Bool
  degenerate_count : ℕ
  face_count : ℕ
  normals_changed : Option Bool
  extents : ℚ × ℚ × ℚ
deriving DecidableEq

/-- The issue strings appended by `analyze_mesh_issues`, one constructor per
f-string (the numeric parameter carries what the f-string interpolates). -/
inductive Issue where
  | notWatertight
  | degenerateFaces (n : ℕ)
  | highPolyCount (n : ℕ)
  | lowPolyCount (n : ℕ)
  | invertedNormals
  | tooLarge (d : ℚ)
  | tooSmall (d : ℚ)
  | thinDimension (d : ℚ)
deriving DecidableEq

/-- The recommendation strings appended in parallel with the issues. -/
inductive Advice where
  | enableFillHoles
  | cleanupDegenerate
  | enableSimplification
  | mayAppearFaceted
  | enableFixNormals
  | scaleDownToFit
  | scaleUpForDetail
  | thinMayNotPrint
deriving DecidableEq

/-- Score deduction for watertightness (main.py lines 57-60): −2 if not
watertight. -/
def watertightPenalty (a : AnalysisInput) : ℤ :=
  if a.is_watertight then 0 else 2

/-- Issue entry for watertightness. -/
def watertightIssues (a : AnalysisInput) : List Issue :=
  if a.is_watertight then [] else [Issue.notWatertight]

/-- Score deduction for degenerate faces (lines 63-69): −1 if any. -/
def degeneratePenalty (a : AnalysisInput) : ℤ :=
  if 0 < a.degenerate_count then 1 else 0

def degenerateIssues (a : AnalysisInput) : List Issue :=
  if 0 < a.degenerate_count then [Issue.degenerateFaces a.degenerate_count] else []

/-- Score deduction for the face count (lines 72-80): −1 if > 500000,
else −1 if < 100 (an `elif`, so the thresholds are mutually exclusive). -/
def facePenalty (n : ℕ) : ℤ :=
  if 500000 < n then 1 else if n < 100 then 1 else 0

def faceIssues (n : ℕ) : List Issue :=
  if 500000 < n then [Issue.highPolyCount n]
  else if n < 100 then [Issue.lowPolyCount n] else []

/-- Score deduction for the normals check (lines 83-93): −1 only when the
check ran and reported changed normals; an exception inside it is swallowed. -/
def normalsPenalty : Option Bool → ℤ
  | some true => 1
  | _ => 0

def normalsIssues : Option Bool → List Issue
  | some true => [Issue.invertedNormals]
  | _ => []

/-- Score deduction for the overall size (lines 100-106): −1 if the largest
extent exceeds 300; the `elif max_dim < 10` branch appends an issue and a
recommendation but performs no `score -= 1`. -/
def sizePenalty (e : ℚ × ℚ × ℚ) : ℤ :=
  if 300 < maxOf3 e then 1 else 0

def sizeIssues (e : ℚ × ℚ × ℚ) : List Issue :=
  if 300 < maxOf3 e then [Issue.tooLarge (maxOf3 e)]
  else if maxOf3 e < 10 then [Issue.tooSmall (maxOf3 e)] else []

/-- Score deduction for a thin dimension (lines 108-111): −1 if the smallest
extent is below 1. -/
def thinPenalty (e : ℚ × ℚ × ℚ) : ℤ :=
  if minOf3 e < 1 then 1 else 0

def thinIssues (e : ℚ × ℚ × ℚ) : List Issue :=
  if minOf3 e < 1 then [Issue.thinDimension (minOf3 e)] else []

/-- Recommendations mirror the issue blocks one-for-one. -/
def adviceList (a : AnalysisInput) : List Advice :=
  (if a.is_watertight then [] else [Advice.enableFillHoles]) ++
  (if 0 < a.degenerate_count then [Advice.cleanupDegenerate] else []) ++
  (if 500000 < a.face_count then [Advice.enableSimplification]
   else if a.face_count < 100 then [Advice.mayAppearFaceted] else []) ++
  (match a.normals_changed with
   | some true => [Advice.enableFixNormals]
   | _ => []) ++
  (if 300 < maxOf3 a.extents then [Advice.scaleDownToFit]
   else if maxOf3 a.extents < 10 then [Advice.scaleUpForDetail] else []) ++
  (if minOf3 a.extents < 1 then [Advice.thinMayNotPrint] else [])

/-- Models `analyze_mesh_issues` (main.py lines 50-113): issue list, recommendation
list, and the printability score `max(1, 5 - deductions)` accumulated in
source order (watertight, degenerate, face count, normals, size, thin). -/
def analyze_mesh_issues (a : AnalysisInput) : List Issue × List Advice × ℤ :=
  (watertightIssues a ++ degenerateIssues a ++ faceIssues a.face_count ++
     normalsIssues a.normals_changed ++ sizeIssues a.extents ++
     thinIssues a.extents,
   adviceList a,
   max 1 (5 - watertightPenalty a - degeneratePenalty a -
     facePenalty a.face_count - normalsPenalty a.normals_changed -
     sizePenalty a.extents - thinPenalty a.extents))

/-- The printability score of `analyze_only`
(`trimesh_optimize.py` lines 265-272): `score = 5`, `-2` if not watertight,
`-1` if `faces > 500000`, and a further `-1` if `faces > 1000000`
(two independent `if`s, so the two face deductions accumulate),
returned as `max(1, score)`. -/
def analyze_only_score (watertight : Bool) (faces : ℕ) : ℤ :=
  max 1 ((5 - (if watertight then 0 else 2) - (if 500000 < faces then 1 else 0))
    - (if 1000000 < faces then 1 else 0))

/- ### Options and the operation log -/

/-- The per-axis target dimensions object; each axis is `none` when the JSON
key is absent or `null`, `some v` when a number `v` was given (`some 0` models
an explicit `0`, which Python treats as falsy in `main.py`'s truthiness guard
but as specified in the script's `is not None` guard). -/
structure TargetSize where
  width : Option ℚ
  height : Option ℚ
  depth : Option ℚ
deriving DecidableEq

/-- The print-bed dimensions object; both sources index all three keys
unconditionally, so they are plain fields. -/
structure BedSize where
  width : ℚ
  height : ℚ
  depth : ℚ
deriving DecidableEq

/-- The recognized options of an optimize invocation. `none` for
`target_size` / `print_bed_size` models the key being absent or falsy (JSON
`null` or an empty object); `none` for `uniform_scale` models absent or
`null`. -/
structure OptimizeOptions where
  fill_holes : Bool := true
  fix_normals : Bool := true
  make_watertight : Bool := true
  center_mesh : Bool := true
  target_size : Option TargetSize := none
  uniform_scale : Option ℚ := none
  print_bed_size : Option BedSize := none
deriving DecidableEq

/-- One entry of the operation log. Each constructor renders the string the
source appends (`"fill_holes"`, `"scale:{f:.3f}"`, ...); the rational
parameter carries the interpolated factor. -/
inductive Op where
  | fill_holes
  | fix_normals
  | make_watertight
  | center_mesh
  | scale (f : ℚ)
  | fit_bed (f : ℚ)
  | remove_degenerate_faces
  | watertight_repair
  | scale_to_target (f : ℚ)
  | uniform_scale (f : ℚ)
  | fit_to_bed (f : ℚ)
  | center_and_ground
deriving DecidableEq

/-- Pipeline state threaded through the repair steps: the mesh, the
`operations` list and the `warnings` list. -/
abbrev RState : Type := Mesh × List Op × List String

/- ### Repair steps (try/except-per-step pattern) -/

/-- One guarded repair step of the `try: repair; operations.append(tag)
except Exception as e: warnings.append(msg(e))` shape used by both pipelines.
`B` is the effect of the library repair call; `.error e` models a raised
exception, caught here at the step boundary. -/
def runStep (enabled : Bool) (tag : Op) (msgOf : String → String)
    (B : Mesh → Except String Mesh) (st : RState) : RState :=
  if enabled then
    match B st.1 with
    | Except.ok m => (m, st.2.1 ++ [tag], st.2.2)
    | Except.error e => (st.1, st.2.1, st.2.2 ++ [msgOf e])
  else st

/-- The `make_watertight` step of `main.py` (lines 306-316): guarded by the
flag AND `not mesh.is_watertight`; on success it appends the op only if the
mesh became watertight, otherwise a warning; an exception becomes a warning. -/
def mainWatertightStep (enabled : Bool) (B : Mesh → Except String Mesh)
    (st : RState) : RState :=
  if enabled ∧ st.1.watertight = false then
    match B st.1 with
    | Except.ok m =>
        if m.watertight then (m, st.2.1 ++ [Op.make_watertight], st.2.2)
        else (m, st.2.1, st.2.2 ++ ["Could not make mesh fully watertight"])
    | Except.error e => (st.1, st.2.1, st.2.2 ++ ["Watertight repair failed: " ++ e])
  else st

/-- The repair section of `main.py`'s `trimesh_optimize` (lines 289-316):
fill holes, fix normals, then the watertight step, each behind its flag.
`fillB`, `fixB`, `wtB` are the effects of the trimesh calls. -/
def mainRepairSection (opts : OptimizeOptions) (m : Mesh)
    (fillB fixB wtB : Mesh → Except String Mesh) : RState :=
  mainWatertightStep opts.make_watertight wtB
    (runStep opts.fix_normals Op.fix_normals
      (fun e => "Fix normals failed: " ++ e) fixB
      (runStep opts.fill_holes Op.fill_holes
        (fun e => "Fill holes failed: " ++ e) fillB (m, [], [])))

/-- The repair section of the script's `optimize_mesh`
(`trimesh_optimize.py` lines 173-205): unconditional degenerate-face removal,
then fill holes, fix normals and the watertight repair behind their flags —
all four in the same try/except-per-step shape. -/
def scriptRepairSection (opts : OptimizeOptions) (m : Mesh)
    (degB fillB fixB wtB : Mesh → Except String Mesh) : RState :=
  runStep opts.make_watertight Op.watertight_repair
    (fun e => "watertight_repair failed: " ++ e) wtB
    (runStep opts.fix_normals Op.fix_normals
      (fun e => "fix_normals failed: " ++ e) fixB
      (runStep opts.fill_holes Op.fill_holes
        (fun e => "fill_holes failed: " ++ e) fillB
        (runStep true Op.remove_degenerate_faces
          (fun e => "remove_degenerate_faces failed: " ++ e) degB (m, [], []))))

/- ### Transform stages: main.py (lines 318-363) -/

/-- One axis of `main.py`'s target-size ratios (lines 331-336): the ratio is
collected only when the axis value is truthy (present and nonzero) AND the
current extent is positive; otherwise the axis contributes nothing. -/
def mainAxisScale : Option ℚ → ℚ → List ℚ
  | some w, ext => if w ≠ 0 ∧ 0 < ext then [w / ext] else []
  | none, _ => []

/-- The ratio list `scales` of `main.py`'s target-size branch. -/
def mainTargetScales (t : TargetSize) (e : ℚ × ℚ × ℚ) : List ℚ :=
  mainAxisScale t.width e.1 ++ mainAxisScale t.height e.2.1 ++
    mainAxisScale t.depth e.2.2

/-- Models `main.py`'s target-size branch (lines 326-341): if any ratios were
collected, apply their minimum and log `scale:{f}`; otherwise do nothing. -/
def mainApplyTarget (t : TargetSize) (m : Mesh) : Mesh × List Op :=
  let scales := mainTargetScales t (extents m)
  if scales = [] then (m, [])
  else (scaleMesh (minList scales) m, [Op.scale (minList scales)])

/-- Models `main.py`'s print-bed ratios (lines 352-358): `bed*0.95/extent` per axis
when the extent is positive, else the literal fallback `1`. -/
def mainBedScales (bed : BedSize) (e : ℚ × ℚ × ℚ) : List ℚ :=
  [if 0 < e.1 then bed.width * (19/20) / e.1 else 1,
   if 0 < e.2.1 then bed.height * (19/20) / e.2.1 else 1,
   if 0 < e.2.2 then bed.depth * (19/20) / e.2.2 else 1]

/-- Models `main.py`'s bed-fit branch (lines 348-363): apply the minimum ratio only
when it is `< 1.0` (scale down, never up), logging `fit_bed:{f}`. -/
def mainFitBed (bed : BedSize) (m : Mesh) : Mesh × List Op :=
  let f := minList (mainBedScales bed (extents m))
  if f < 1 then (scaleMesh f m, [Op.fit_bed f]) else (m, [])

/-- The `elif "print_bed_size" ...` fallthrough of `main.py`. -/
def mainBedStage : Option BedSize → Mesh → Mesh × List Op
  | some bed, m => mainFitBed bed m
  | none, m => (m, [])

/-- The scaling `if/elif/elif` of `main.py` (lines 325-363): `target_size`
(when the object is truthy, even with all axes null) shadows
`uniform_scale` (when truthy, i.e. nonzero) which shadows `print_bed_size`. -/
def mainScalingStage (opts : OptimizeOptions) (m : Mesh) : Mesh × List Op :=
  match opts.target_size with
  | some t => mainApplyTarget t m
  | none =>
      match opts.uniform_scale with
      | some u =>
          if u ≠ 0 then (scaleMesh u m, [Op.scale u])
          else mainBedStage opts.print_bed_size m
      | none => mainBedStage opts.print_bed_size m

/-- The centering block of `main.py` (lines 318-323), not exception-wrapped. -/
def mainCenterStage (opts : OptimizeOptions) (m : Mesh) : Mesh × List Op :=
  if opts.center_mesh then (centerAndGround m, [Op.center_mesh]) else (m, [])

/-- Models `main.py`'s transform section: centering FIRST (lines 318-323), then the
scaling branch (lines 325-363), with the log entries in execution order. -/
def mainTransformSection (opts : OptimizeOptions) (m : Mesh) :
    Mesh × List Op :=
  let c := mainCenterStage opts m
  let s := mainScalingStage opts c.1
  (s.1, c.2 ++ s.2)

/-- The full post-load `trimesh_optimize` pipeline of `main.py`: repair
section (lines 289-316), then centering, then scaling. -/
def mainPipeline (opts : OptimizeOptions) (m : Mesh)
    (fillB fixB wtB : Mesh → Except String Mesh) : RState :=
  let r := mainRepairSection opts m fillB fixB wtB
  let t := mainTransformSection opts r.1
  (t.1, r.2.1 ++ t.2, r.2.2)

/- ### Transform stages: trimesh_optimize.py (lines 92-136, 207-225) -/

/-- One axis of the script's `apply_target_size` (lines 99-104): the ratio is
collected whenever the axis value `is not None`, with no extent guard. -/
def scriptAxisScale : Option ℚ → ℚ → List ℚ
  | some v, ext => [v / ext]
  | none, _ => []

/-- The ratio list `scales` of `apply_target_size`. -/
def scriptTargetScales (t : TargetSize) (e : ℚ × ℚ × ℚ) : List ℚ :=
  scriptAxisScale t.width e.1 ++ scriptAxisScale t.height e.2.1 ++
    scriptAxisScale t.depth e.2.2

/-- Models `apply_target_size` (`trimesh_optimize.py` lines 92-111): apply the
minimum of the specified ratios and return it; `1.0` when nothing was
specified. (A Python float division by a zero extent yields an infinity ℚ
cannot represent, so theorems about this function assume positive extents.) -/
def apply_target_size (m : Mesh) (t : TargetSize) : Mesh × ℚ :=
  let scales := scriptTargetScales t (extents m)
  if scales = [] then (m, 1)
  else (scaleMesh (minList scales) m, minList scales)

/-- Models `fit_to_print_bed` (`trimesh_optimize.py` lines 114-126): the minimum
bed/extent ratio times the `0.95` margin, applied UNCONDITIONALLY — there is
no `< 1.0` guard in this function. -/
def fit_to_print_bed (m : Mesh) (bed : BedSize) : Mesh × ℚ :=
  let e := extents m
  let f := min (bed.width / e.1) (min (bed.height / e.2.1) (bed.depth / e.2.2))
    * (19/20)
  (scaleMesh f m, f)

/-- Models `any(v is not None for v in target_size.values())`. -/
def anySpecified (t : TargetSize) : Bool :=
  t.width.isSome || t.height.isSome || t.depth.isSome

/-- The `elif uniform_scale is not None / elif print_bed` fallthrough of the
script (lines 215-220). -/
def scriptAfterTarget (opts : OptimizeOptions) (m : Mesh) : Mesh × List Op :=
  match opts.uniform_scale with
  | some u => (scaleMesh u m, [Op.uniform_scale u])
  | none =>
      match opts.print_bed_size with
      | some bed =>
          let r := fit_to_print_bed m bed
          (r.1, [Op.fit_to_bed r.2])
      | none => (m, [])

/-- The scaling `if/elif/elif` of the script's `optimize_mesh`
(lines 207-220): the target branch is taken only when the object is truthy
AND some axis `is not None`. -/
def scriptScalingStage (opts : OptimizeOptions) (m : Mesh) : Mesh × List Op :=
  match opts.target_size with
  | some t =>
      if anySpecified t then
        let r := apply_target_size m t
        (r.1, [Op.scale_to_target r.2])
      else scriptAfterTarget opts m
  | none => scriptAfterTarget opts m

/-- The script's centering block (lines 222-225). -/
def scriptCenterStage (opts : OptimizeOptions) (m : Mesh) : Mesh × List Op :=
  if opts.center_mesh then (centerAndGround m, [Op.center_and_ground])
  else (m, [])

/-- The script's transform section: scaling FIRST (lines 207-220), then
centering (lines 222-225). -/
def scriptTransformSection (opts : OptimizeOptions) (m : Mesh) :
    Mesh × List Op :=
  let s := scriptScalingStage opts m
  let c := scriptCenterStage opts s.1
  (c.1, s.2 ++ c.2)

/-- The full post-load `optimize_mesh` pipeline of the script: repair
section, then scaling, then centering. -/
def scriptPipeline (opts : OptimizeOptions) (m : Mesh)
    (degB fillB fixB wtB : Mesh → Except String Mesh) : RState :=
  let r := scriptRepairSection opts m degB fillB fixB wtB
  let t := scriptTransformSection opts r.1
  (t.1, r.2.1 ++ t.2, r.2.2)

/- ### Claim-facing observations -/

/-- Which scaling operation a pipeline run performed. -/
inductive ScaleKind where
  | target
  | uniform
  | bed
deriving DecidableEq

/-- The `otherwise` cases of `claimedScalingKind`: a present `uniform_scale`
takes priority over a present `print_bed_size`. -/
def claimedScalingFallback (opts : OptimizeOptions) : Option ScaleKind :=
  match opts.uniform_scale with
  | some _ => some ScaleKind.uniform
  | none =>
      match opts.print_bed_size with
      | some _ => some ScaleKind.bed
      | none => none

/-- The scaling-priority rule as the claim states it: `target_size` present
with at least one non-null axis takes priority; otherwise a present
`uniform_scale`; otherwise a present `print_bed_size`; else no scaling.
(Stated from the claim's words, to be compared with the source stages.) -/
def claimedScalingKind (opts : OptimizeOptions) : Option ScaleKind :=
  match opts.target_size with
  | some t =>
      if anySpecified t then some ScaleKind.target
      else claimedScalingFallback opts
  | none => claimedScalingFallback opts

/-- The scaling kind the script stage actually performed, read off its log. -/
def scriptScalingKind (opts : OptimizeOptions) (m : Mesh) : Option ScaleKind :=
  match (scriptScalingStage opts m).2 with
  | Op.scale_to_target _ :: _ => some ScaleKind.target
  | Op.uniform_scale _ :: _ => some ScaleKind.uniform
  | Op.fit_to_bed _ :: _ => some ScaleKind.bed
  | _ => none

/-- Is a log entry a scaling entry (either pipeline's tags)? -/
def isScaleOp : Op → Bool
  | Op.scale _ => true
  | Op.fit_bed _ => true
  | Op.scale_to_target _ => true
  | Op.uniform_scale _ => true
  | Op.fit_to_bed _ => true
  | _ => false

/-- Is a log entry a centering entry? -/
def isCenterOp : Op → Bool
  | Op.center_mesh => true
  | Op.center_and_ground => true
  | _ => false

/-- Formalizes "the scaling operation is applied before the centering operation": the
first scaling entry of the log strictly precedes the first centering entry
(`List.findIdx` returns the list's length when no entry matches). -/
def scaleBeforeCenter (l : List Op) : Prop :=
  l.findIdx isScaleOp < l.findIdx isCenterOp

instance (l : List Op) : Decidable (scaleBeforeCenter l) := by
  unfold scaleBeforeCenter; infer_instance

/-- The outcome of a scaling request. `degenerateExtentFailure` is the
spec's `DegenerateExtent` error (§7); the constructor exists to state the
spec's taxonomy — no code path of either source produces it. -/
inductive ScaleResult where
  | applied (f : ℚ)
  | noop
  | degenerateExtentFailure
deriving DecidableEq

/-- The outcome of `main.py`'s scaling stage, read off its log: a scale was
applied, or nothing happened; the stage has no failure path. -/
def mainScalingOutcome (opts : OptimizeOptions) (m : Mesh) : ScaleResult :=
  match (mainScalingStage opts m).2 with
  | Op.scale f :: _ => ScaleResult.applied f
  | Op.fit_bed f :: _ => ScaleResult.applied f
  | _ => ScaleResult.noop

/- ### Concrete inputs used by witnesses and counterexamples -/

/-- A clean mesh report: watertight, no degenerate faces, a sane face count,
consistent normals, a 50mm cube bounding box. -/
def perfectInput : AnalysisInput :=
  { is_watertight := true, degenerate_count := 0, face_count := 1000,
    normals_changed := some false, extents := (50, 50, 50) }

/-- A mesh triggering every deduction of `analyze_mesh_issues`: not
watertight, degenerate faces, >500000 faces, inverted normals, >300mm
largest extent, <1mm smallest extent. -/
def worstInput : AnalysisInput :=
  { is_watertight := false, degenerate_count := 5, face_count := 1000000,
    normals_changed := some true, extents := (400, 0, 350) }

/-- A healthy mesh whose largest bounding-box dimension is 5mm (< 10mm). -/
def smallInput : AnalysisInput :=
  { is_watertight := true, degenerate_count := 0, face_count := 1000,
    normals_changed := some false, extents := (5, 5, 5) }

/-- A watertight two-vertex mesh with extents (1, 1, 1). -/
def meshUnit : Mesh := { verts := [(0, 0, 0), (1, 1, 1)], watertight := true }

/-- A watertight two-vertex mesh with extents (10, 10, 10). -/
def meshTen : Mesh := { verts := [(0, 0, 0), (10, 10, 10)], watertight := true }

/-- A mesh whose `is_watertight` attribute is false. -/
def meshOpen : Mesh := { verts := [(0, 0, 0), (1, 1, 1)], watertight := false }

/-- A mesh that is flat along x: extents (0, 5, 5). -/
def meshFlatX : Mesh := { verts := [(0, 0, 0), (0, 5, 5)], watertight := true }

/-- A repair behavior that succeeds without touching the mesh. -/
def okRepair : Mesh → Except String Mesh := fun m => Except.ok m

/-- A repair behavior that raises. -/
def failRepair (e : String) : Mesh → Except String Mesh :=
  fun _ => Except.error e

/-- A 200mm cubic print bed. -/
def bed200 : BedSize := { width := 200, height := 200, depth := 200 }

/-- Options for the C3 counterexample: repairs off, centering on, a uniform
scale factor of 2. -/
def ceOptsOrder : OptimizeOptions :=
  { fill_holes := false, fix_normals := false, make_watertight := false,
    center_mesh := true, target_size := none, uniform_scale := some 2,
    print_bed_size := none }

/-- Options for the C10 counterexample: a truthy `target_size` object whose
axes are all null, plus `uniform_scale: 2`. -/
def ceOptsPriority : OptimizeOptions :=
  { fill_holes := false, fix_normals := false, make_watertight := false,
    center_mesh := false,
    target_size := some { width := none, height := none, depth := none },
    uniform_scale := some 2, print_bed_size := none }

/-- A target size requesting only a 100mm width. -/
def targetWidth100 : TargetSize :=
  { width := some 100, height := none, depth := none }

/-- Options for the C5 counterexample: `target_size` requesting only a
100mm width. -/
def ceOptsWidth : OptimizeOptions :=
  { fill_holes := false, fix_normals := false, make_watertight := false,
    center_mesh := false, target_size := some targetWidth100,
    uniform_scale := none, print_bed_size := none }

/-- Target for the C8 counterexample: width 100 and height 50 requested
together. -/
def ceTargetTwoAxes : TargetSize :=
  { width := some 100, height := some 50, depth := none }

/-- Options for the C9 counterexample: only `fill_holes` enabled. -/
def ceOptsFill : OptimizeOptions :=
  { fill_holes := true, fix_normals := false, make_watertight := false,
    center_mesh := false, target_size := none, uniform_scale := none,
    print_bed_size := none }

/- ### List min/max facts used by the scaling theorems -/

theorem foldl_min_le_init (l : List ℚ) : ∀ x : ℚ, l.foldl min x ≤ x := by
  induction l with
  | nil => intro x; exact le_refl x
  | cons y ys ih =>
      intro x
      exact le_trans (ih (min x y)) (min_le_left x y)

theorem init_le_foldl_max (l : List ℚ) : ∀ x : ℚ, x ≤ l.foldl max x := by
  induction l with
  | nil => intro x; exact le_refl x
  | cons y ys ih =>
      intro x
      exact le_trans (le_max_left x y) (ih (max x y))

theorem foldl_min_le_mem (l : List ℚ) :
    ∀ x a : ℚ, a ∈ l → l.foldl min x ≤ a := by
  induction l with
  | nil => intro x a ha; cases ha
  | cons y ys ih =>
      intro x a ha
      rcases List.mem_cons.mp ha with h | h
      · subst h
        exact le_trans (foldl_min_le_init ys (min x a)) (min_le_right x a)
      · exact ih (min x y) a h

theorem foldl_min_mem (l : List ℚ) :
    ∀ x : ℚ, l.foldl min x = x ∨ l.foldl min x ∈ l := by
  induction l with
  | nil => intro x; exact Or.inl rfl
  | cons y ys ih =>
      intro x
      rcases ih (min x y) with h | h
      · rcases le_total x y with hxy | hyx
        · left
          rw [List.foldl_cons, h, min_eq_left hxy]
        · right
          rw [List.foldl_cons, h, min_eq_right hyx]
          exact List.mem_cons_self y ys
      · right
        exact List.mem_cons_of_mem y h

/-- Lemma: `minList` is a lower bound for every member. -/
theorem minList_le_mem {l : List ℚ} {a : ℚ} (ha : a ∈ l) : minList l ≤ a := by
  cases l with
  | nil => cases ha
  | cons x xs =>
      rcases List.mem_cons.mp ha with h | h
      · subst h; exact foldl_min_le_init xs a
      · exact foldl_min_le_mem xs x a h

/-- Lemma: `minList` of a nonempty list is attained by some member. -/
theorem minList_mem {l : List ℚ} (h : l ≠ []) : minList l ∈ l := by
  cases l with
  | nil => exact absurd rfl h
  | cons x xs =>
      rcases foldl_min_mem xs x with h1 | h1
      · rw [minList, h1]; exact List.mem_cons_self x xs
      · rw [minList]; exact List.mem_cons_of_mem x h1

theorem le_foldl_max_mem (l : List ℚ) :
    ∀ x a : ℚ, a ∈ l → a ≤ l.foldl max x := by
  induction l with
  | nil => intro x a ha; cases ha
  | cons y ys ih =>
      intro x a ha
      rcases List.mem_cons.mp ha with h | h
      · subst h
        exact le_trans (le_max_right x a) (init_le_foldl_max ys (max x a))
      · exact ih (max x y) a h

theorem le_maxList_mem {l : List ℚ} {a : ℚ} (ha : a ∈ l) : a ≤ maxList l := by
  cases l with
  | nil => cases ha
  | cons x xs =>
      rcases List.mem_cons.mp ha with h | h
      · subst h; exact init_le_foldl_max xs a
      · exact le_foldl_max_mem xs x a h

theorem foldl_max_mul_nonneg {f : ℚ} (hf : 0 ≤ f) (l : List ℚ) :
    ∀ x : ℚ, (l.map (fun a => f * a)).foldl max (f * x) = f * l.foldl max x := by
  induction l with
  | nil => intro x; rfl
  | cons y ys ih =>
      intro x
      simp only [List.map_cons, List.foldl_cons]
      rw [← mul_max_of_nonneg x y hf, ih (max x y)]

theorem foldl_min_mul_nonneg {f : ℚ} (hf : 0 ≤ f) (l : List ℚ) :
    ∀ x : ℚ, (l.map (fun a => f * a)).foldl min (f * x) = f * l.foldl min x := by
  induction l with
  | nil => intro x; rfl
  | cons y ys ih =>
      intro x
      simp only [List.map_cons, List.foldl_cons]
      rw [← mul_min_of_nonneg x y hf, ih (min x y)]

theorem maxList_mul_nonneg {f : ℚ} (hf : 0 ≤ f) (l : List ℚ) :
    maxList (l.map (fun a => f * a)) = f * maxList l := by
  cases l with
  | nil => simp [maxList]
  | cons x xs => exact foldl_max_mul_nonneg hf xs x

theorem minList_mul_nonneg {f : ℚ} (hf : 0 ≤ f) (l : List ℚ) :
    minList (l.map (fun a => f * a)) = f * minList l := by
  cases l with
  | nil => simp [minList]
  | cons x xs => exact foldl_min_mul_nonneg hf xs x

/-- Scaling multiplies each per-axis extent by the (nonnegative) factor. -/
theorem extAxis_mul_nonneg {f : ℚ} (hf : 0 ≤ f) (l : List ℚ) :
    extAxis (l.map (fun a => f * a)) = f * extAxis l := by
  simp only [extAxis, maxList_mul_nonneg hf, minList_mul_nonneg hf]
  ring

theorem xsOf_scaleMesh (f : ℚ) (m : Mesh) :
    xsOf (scaleMesh f m) = (xsOf m).map (fun a => f * a) := by
  simp [xsOf, scaleMesh, List.map_map, Function.comp]

theorem ysOf_scaleMesh (f : ℚ) (m : Mesh) :
    ysOf (scaleMesh f m) = (ysOf m).map (fun a => f * a) := by
  simp [ysOf, scaleMesh, List.map_map, Function.comp]

theorem zsOf_scaleMesh (f : ℚ) (m : Mesh) :
    zsOf (scaleMesh f m) = (zsOf m).map (fun a => f * a) := by
  simp [zsOf, scaleMesh, List.map_map, Function.comp]

/-- Lemma: `apply_scale` with a nonnegative factor multiplies all three extents by it. -/
theorem extents_scaleMesh {f : ℚ} (hf : 0 ≤ f) (m : Mesh) :
    extents (scaleMesh f m) =
      (f * (extents m).1, f * (extents m).2.1, f * (extents m).2.2) := by
  simp only [extents, xsOf_scaleMesh, ysOf_scaleMesh, zsOf_scaleMesh,
    extAxis_mul_nonneg hf]

/-- Extents are nonnegative: per-axis min ≤ max. -/
theorem extAxis_nonneg (l : List ℚ) : 0 ≤ extAxis l := by
  cases l with
  | nil => simp [extAxis, minList, maxList]
  | cons x xs =>
      have h1 : minList (x :: xs) ≤ x := foldl_min_le_init xs x
      have h2 : x ≤ maxList (x :: xs) := init_le_foldl_max xs x
      simp only [extAxis]
      linarith

/- ### Penalty bounds and issue/penalty links -/

theorem watertightPenalty_bounds (a : AnalysisInput) :
    0 ≤ watertightPenalty a ∧ watertightPenalty a ≤ 2 := by
  unfold watertightPenalty; split_ifs <;> omega

theorem degeneratePenalty_bounds (a : AnalysisInput) :
    0 ≤ degeneratePenalty a ∧ degeneratePenalty a ≤ 1 := by
  unfold degeneratePenalty; split_ifs <;> omega

theorem facePenalty_bounds (n : ℕ) : 0 ≤ facePenalty n ∧ facePenalty n ≤ 1 := by
  unfold facePenalty; split_ifs <;> omega

theorem normalsPenalty_bounds (o : Option Bool) :
    0 ≤ normalsPenalty o ∧ normalsPenalty o ≤ 1 := by
  cases o with
  | none => simp [normalsPenalty]
  | some b => cases b <;> simp [normalsPenalty]

theorem sizePenalty_bounds (e : ℚ × ℚ × ℚ) :
    0 ≤ sizePenalty e ∧ sizePenalty e ≤ 1 := by
  unfold sizePenalty; split_ifs <;> omega

theorem thinPenalty_bounds (e : ℚ × ℚ × ℚ) :
    0 ≤ thinPenalty e ∧ thinPenalty e ≤ 1 := by
  unfold thinPenalty; split_ifs <;> omega

theorem watertightIssues_nil {a : AnalysisInput}
    (h : watertightIssues a = []) : watertightPenalty a = 0 := by
  by_cases hw : a.is_watertight
  · simp [watertightPenalty, hw]
  · simp [watertightIssues, hw] at h

theorem degenerateIssues_nil {a : AnalysisInput}
    (h : degenerateIssues a = []) : degeneratePenalty a = 0 := by
  by_cases hd : 0 < a.degenerate_count
  · simp [degenerateIssues, hd] at h
  · simp [degeneratePenalty, hd]

theorem faceIssues_nil {n : ℕ} (h : faceIssues n = []) : facePenalty n = 0 := by
  by_cases h1 : 500000 < n
  · simp [faceIssues, h1] at h
  · by_cases h2 : n < 100
    · simp [faceIssues, h1, h2] at h
    · simp [facePenalty, h1, h2]

theorem normalsIssues_nil {o : Option Bool}
    (h : normalsIssues o = []) : normalsPenalty o = 0 := by
  cases o with
  | none => simp [normalsPenalty]
  | some b =>
      cases b with
      | false => simp [normalsPenalty]
      | true => simp [normalsIssues] at h

theorem sizeIssues_nil {e : ℚ × ℚ × ℚ}
    (h : sizeIssues e = []) : sizePenalty e = 0 := by
  by_cases h1 : 300 < maxOf3 e
  · simp [sizeIssues, h1] at h
  · simp [sizePenalty, h1]

theorem thinIssues_nil {e : ℚ × ℚ × ℚ}
    (h : thinIssues e = []) : thinPenalty e = 0 := by
  by_cases h1 : minOf3 e < 1
  · simp [thinIssues, h1] at h
  · simp [thinPenalty, h1]

/- ### C1 — printability score range -/

/-- C1: for every input the printability score of `analyze_mesh_issues` is
an integer in `[1, 5]`; an input with an empty issue list scores exactly 5;
the score of the script's `analyze_only` is also in `[1, 5]`; and an input
accumulating every deduction clamps to exactly 1, never below. -/
theorem printability_score_in_range (a : AnalysisInput) (w : Bool) (n : ℕ) :
    (1 ≤ (analyze_mesh_issues a).2.2 ∧ (analyze_mesh_issues a).2.2 ≤ 5) ∧
    ((analyze_mesh_issues a).1 = [] → (analyze_mesh_issues a).2.2 = 5) ∧
    (1 ≤ analyze_only_score w n ∧ analyze_only_score w n ≤ 5) ∧
    (analyze_mesh_issues worstInput).2.2 = 1 := by
  obtain ⟨w1, w2⟩ := watertightPenalty_bounds a
  obtain ⟨d1, d2⟩ := degeneratePenalty_bounds a
  obtain ⟨f1, f2⟩ := facePenalty_bounds a.face_count
  obtain ⟨n1, n2⟩ := normalsPenalty_bounds a.normals_changed
  obtain ⟨s1, s2⟩ := sizePenalty_bounds a.extents
  obtain ⟨t1, t2⟩ := thinPenalty_bounds a.extents
  have hsc : (analyze_mesh_issues a).2.2 =
      max 1 (5 - watertightPenalty a - degeneratePenalty a -
        facePenalty a.face_count - normalsPenalty a.normals_changed -
        sizePenalty a.extents - thinPenalty a.extents) := rfl
  refine ⟨⟨le_max_left _ _, ?_⟩, ?_, ⟨?_, ?_⟩, by decide⟩
  · rw [hsc]
    exact max_le (by norm_num) (by omega)
  · intro h
    have hli : (analyze_mesh_issues a).1 =
        watertightIssues a ++ degenerateIssues a ++ faceIssues a.face_count ++
          normalsIssues a.normals_changed ++ sizeIssues a.extents ++
          thinIssues a.extents := rfl
    rw [hli, List.append_eq_nil, List.append_eq_nil, List.append_eq_nil,
      List.append_eq_nil, List.append_eq_nil] at h
    obtain ⟨⟨⟨⟨⟨hw, hd⟩, hf⟩, hn⟩, hs⟩, ht⟩ := h
    rw [hsc, watertightIssues_nil hw, degenerateIssues_nil hd,
      faceIssues_nil hf, normalsIssues_nil hn, sizeIssues_nil hs,
      thinIssues_nil ht]
    decide
  · exact le_max_left _ _
  · unfold analyze_only_score
    split_ifs <;> decide

/-- Witness for C1: the clean input has an empty issue list and scores 5,
and a 200-face watertight mesh scores at least 1 in `analyze_only`. -/
theorem printability_score_in_range_witness :
    (analyze_mesh_issues perfectInput).2.2 = 5 ∧
    1 ≤ analyze_only_score true 200 :=
  ⟨(printability_score_in_range perfectInput true 200).2.1 (by decide),
   (printability_score_in_range perfectInput true 200).2.2.1.1⟩

/- ### C6 — face-count penalty -/

/-- C6 counterexample: in the script's `analyze_only`, a watertight mesh
with 1000001 faces scores 3, not the 4 the claim's
"loses only 1 point for face count" requires (both face-count deductions
fire cumulatively). -/
theorem face_count_over_million_ce :
    analyze_only_score true 1000001 = 3 ∧ analyze_only_score true 1000001 ≠ 4 := by
  decide

/-- C6 (amended): in `analyze_mesh_issues` the face-count deduction is
exactly −1, at most once, from the mutually exclusive thresholds >500000 and
<100; but in the script's `analyze_only` the two face-count deductions
accumulate, so a mesh with more than 1000000 faces loses 2 points for face
count. -/
theorem face_count_penalty_main_vs_script (a : AnalysisInput) (n : ℕ)
    (hhi : 500000 < a.face_count) (h1m : 1000000 < n) :
    facePenalty a.face_count = 1 ∧
    (∀ k : ℕ, facePenalty k ≤ 1) ∧
    (∀ k : ℕ, k < 100 → facePenalty k = 1) ∧
    (∀ w : Bool, analyze_only_score w n =
      max 1 (5 - (if w then 0 else 2) - 1 - 1)) := by
  refine ⟨?_, ?_, ?_, ?_⟩
  · simp [facePenalty, hhi]
  · intro k; unfold facePenalty; split_ifs <;> omega
  · intro k hk
    have h1 : ¬ 500000 < k := by omega
    simp [facePenalty, h1, hk]
  · intro w
    have h5 : 500000 < n := by omega
    simp [analyze_only_score, h5, h1m]

/-- Witness for C6's amended statement at 600000 main-side faces and
1000001 script-side faces. -/
theorem face_count_penalty_main_vs_script_witness :
    facePenalty worstInput.face_count = 1 ∧
    (∀ k : ℕ, facePenalty k ≤ 1) ∧
    (∀ k : ℕ, k < 100 → facePenalty k = 1) ∧
    (∀ w : Bool, analyze_only_score w 1000001 =
      max 1 (5 - (if w then 0 else 2) - 1 - 1)) :=
  face_count_penalty_main_vs_script worstInput 1000001 (by decide) (by decide)

/- ### C7 — small-size branch -/

/-- C7 counterexample: a healthy mesh whose largest dimension is 5mm keeps
score 5 — the `elif max_dim < 10` branch records the issue but performs no
`score -= 1`, so the claimed decrement to 4 does not happen. -/
theorem small_mesh_keeps_score_ce :
    (analyze_mesh_issues smallInput).2.2 = 5 ∧
    Issue.tooSmall 5 ∈ (analyze_mesh_issues smallInput).1 ∧
    (analyze_mesh_issues smallInput).2.2 ≠ 4 := by
  decide

/-- C7 (amended): for every input whose largest extent is below 10mm the
analysis appends the small-size issue, but the size deduction is 0 and the
score equals the clamp of 5 minus the other deductions only; the >300mm
branch (mutually exclusive with this one) is the only size branch that
deducts 1. -/
theorem small_size_issue_without_penalty (a : AnalysisInput)
    (h : maxOf3 a.extents < 10) :
    Issue.tooSmall (maxOf3 a.extents) ∈ (analyze_mesh_issues a).1 ∧
    sizePenalty a.extents = 0 ∧
    (analyze_mesh_issues a).2.2 =
      max 1 (5 - watertightPenalty a - degeneratePenalty a -
        facePenalty a.face_count - normalsPenalty a.normals_changed -
        thinPenalty a.extents) ∧
    (∀ e : ℚ × ℚ × ℚ, 300 < maxOf3 e → sizePenalty e = 1) := by
  have h300 : ¬ 300 < maxOf3 a.extents := by linarith
  refine ⟨?_, ?_, ?_, ?_⟩
  · simp [analyze_mesh_issues, sizeIssues, h300, h]
  · simp [sizePenalty, h300]
  · simp only [analyze_mesh_issues, sizePenalty, h300, if_false]
    norm_num
  · intro e he; simp [sizePenalty, he]

/-- Witness for C7's amended statement at the 5mm input. -/
theorem small_size_issue_without_penalty_witness :
    Issue.tooSmall (maxOf3 smallInput.extents) ∈ (analyze_mesh_issues smallInput).1 ∧
    sizePenalty smallInput.extents = 0 ∧
    (analyze_mesh_issues smallInput).2.2 =
      max 1 (5 - watertightPenalty smallInput - degeneratePenalty smallInput -
        facePenalty smallInput.face_count -
        normalsPenalty smallInput.normals_changed -
        thinPenalty smallInput.extents) ∧
    (∀ e : ℚ × ℚ × ℚ, 300 < maxOf3 e → sizePenalty e = 1) :=
  small_size_issue_without_penalty smallInput (by decide)

/- ### C2 — repair failures are caught at the step boundary -/

/-- C2: an exception inside a repair step is caught at that step's boundary
and recorded as a warning, leaving the mesh and the operation log untouched
by that step (first two conjuncts, for the plain guarded step and for
`main.py`'s watertight step); and even when EVERY enabled repair raises, both
pipelines run all their steps, record one warning per failure in order, and
return normally with the mesh in its pre-step state. -/
theorem repair_failure_becomes_warning
    (st : RState) (B : Mesh → Except String Mesh) (tag : Op)
    (msgOf : String → String) (e : String)
    (opts : OptimizeOptions) (m : Mesh)
    (degB fillB fixB wtB : Mesh → Except String Mesh)
    (e0 e1 e2 e3 : String)
    (hB : B st.1 = Except.error e)
    (h0 : degB m = Except.error e0)
    (h1 : fillB m = Except.error e1)
    (h2 : fixB m = Except.error e2)
    (h3 : wtB m = Except.error e3)
    (hf : opts.fill_holes = true) (hx : opts.fix_normals = true)
    (hw : opts.make_watertight = true) (hm : m.watertight = false) :
    runStep true tag msgOf B st = (st.1, st.2.1, st.2.2 ++ [msgOf e]) ∧
    (∀ st2 : RState, st2.1.watertight = false →
      wtB st2.1 = Except.error e3 →
      mainWatertightStep true wtB st2 =
        (st2.1, st2.2.1, st2.2.2 ++ ["Watertight repair failed: " ++ e3])) ∧
    mainRepairSection opts m fillB fixB wtB =
      (m, [], ["Fill holes failed: " ++ e1, "Fix normals failed: " ++ e2,
        "Watertight repair failed: " ++ e3]) ∧
    scriptRepairSection opts m degB fillB fixB wtB =
      (m, [], ["remove_degenerate_faces failed: " ++ e0,
        "fill_holes failed: " ++ e1, "fix_normals failed: " ++ e2,
        "watertight_repair failed: " ++ e3]) := by
  refine ⟨?_, ?_, ?_, ?_⟩
  · simp [runStep, hB]
  · intro st2 hw2 hB2
    simp [mainWatertightStep, hw2, hB2]
  · simp [mainRepairSection, runStep, mainWatertightStep, hf, hx, hw,
      h1, h2, h3, hm]
  · simp [scriptRepairSection, runStep, hf, hx, hw, h0, h1, h2, h3]

/-- Witness for C2: all-failing repairs on a concrete non-watertight mesh
with default options; both pipelines return the mesh unchanged with the four
(resp. three) failure warnings and no operations. -/
theorem repair_failure_becomes_warning_witness :
    mainRepairSection {} meshOpen (failRepair "a") (failRepair "b")
        (failRepair "c") =
      (meshOpen, [], ["Fill holes failed: " ++ "a", "Fix normals failed: " ++ "b",
        "Watertight repair failed: " ++ "c"]) ∧
    scriptRepairSection {} meshOpen (failRepair "d") (failRepair "a")
        (failRepair "b") (failRepair "c") =
      (meshOpen, [], ["remove_degenerate_faces failed: " ++ "d",
        "fill_holes failed: " ++ "a", "fix_normals failed: " ++ "b",
        "watertight_repair failed: " ++ "c"]) :=
  ⟨(repair_failure_becomes_warning (meshOpen, [], []) (failRepair "z")
      Op.fill_holes id "z" {} meshOpen (failRepair "d") (failRepair "a")
      (failRepair "b") (failRepair "c") "d" "a" "b" "c" rfl rfl rfl rfl rfl
      rfl rfl rfl rfl).2.2.1,
   (repair_failure_becomes_warning (meshOpen, [], []) (failRepair "z")
      Op.fill_holes id "z" {} meshOpen (failRepair "d") (failRepair "a")
      (failRepair "b") (failRepair "c") "d" "a" "b" "c" rfl rfl rfl rfl rfl
      rfl rfl rfl rfl).2.2.2⟩

/- ### C9 — hole filling on an already-watertight mesh -/

/-- C9 counterexample: with `fill_holes=true` and an already-watertight mesh
(the repair call succeeding without touching it, as trimesh's
`fill_holes` does on a watertight mesh), the mesh is returned unchanged but
the operation log DOES gain a `fill_holes` entry — contradicting the claim
that the log is unaffected. -/
theorem fill_holes_logged_on_watertight_ce :
    mainRepairSection ceOptsFill meshUnit okRepair okRepair okRepair =
      (meshUnit, [Op.fill_holes], []) ∧
    Op.fill_holes ∈
      (mainRepairSection ceOptsFill meshUnit okRepair okRepair okRepair).2.1 := by
  constructor
  · rfl
  · show Op.fill_holes ∈ [Op.fill_holes]
    exact List.mem_singleton.mpr rfl

/-- C9 (amended): for a mesh with zero boundary edges (so `is_watertight`
holds and — modelled from the spec §8 — the library's hole filling is a
no-op returning the mesh unchanged, hypothesis `hB`), the enabled fill step
leaves the mesh unchanged but appends `fill_holes` to the operation log; in
particular the log is NOT unaffected: it grows by exactly that entry. -/
theorem fill_holes_on_watertight_logs_op (m : Mesh)
    (fillB : Mesh → Except String Mesh)
    (hm : m.watertight = true)
    (hB : ∀ m' : Mesh, m'.watertight = true → fillB m' = Except.ok m') :
    (∀ ops ws, runStep true Op.fill_holes
        (fun e => "Fill holes failed: " ++ e) fillB (m, ops, ws) =
        (m, ops ++ [Op.fill_holes], ws)) ∧
    mainRepairSection ceOptsFill m fillB okRepair okRepair =
      (m, [Op.fill_holes], []) ∧
    (mainRepairSection ceOptsFill m fillB okRepair okRepair).2.1 ≠ [] := by
  have hfill := hB m hm
  refine ⟨?_, ?_, ?_⟩
  · intro ops ws
    simp [runStep, hfill]
  · simp [mainRepairSection, runStep, mainWatertightStep, ceOptsFill, hfill, hm]
  · simp [mainRepairSection, runStep, mainWatertightStep, ceOptsFill, hfill, hm]

/-- Witness for C9's amended statement at a concrete watertight mesh with
the identity repair. -/
theorem fill_holes_on_watertight_logs_op_witness :
    (∀ ops ws, runStep true Op.fill_holes
        (fun e => "Fill holes failed: " ++ e) okRepair (meshTen, ops, ws) =
        (meshTen, ops ++ [Op.fill_holes], ws)) ∧
    mainRepairSection ceOptsFill meshTen okRepair okRepair okRepair =
      (meshTen, [Op.fill_holes], []) ∧
    (mainRepairSection ceOptsFill meshTen okRepair okRepair okRepair).2.1 ≠ [] :=
  fill_holes_on_watertight_logs_op meshTen okRepair rfl (fun _ _ => rfl)

/- ### Shared evaluation and stage lemmas -/

theorem extents_meshUnit : extents meshUnit = (1, 1, 1) := by
  have h1 : maxList [(0 : ℚ), 1] = 1 := by decide
  have h2 : minList [(0 : ℚ), 1] = 0 := by decide
  show (extAxis [(0 : ℚ), 1], extAxis [(0 : ℚ), 1], extAxis [(0 : ℚ), 1]) =
    (1, 1, 1)
  simp [extAxis, h1, h2]

theorem extents_meshTen : extents meshTen = (10, 10, 10) := by
  have h1 : maxList [(0 : ℚ), 10] = 10 := by decide
  have h2 : minList [(0 : ℚ), 10] = 0 := by decide
  show (extAxis [(0 : ℚ), 10], extAxis [(0 : ℚ), 10], extAxis [(0 : ℚ), 10]) =
    (10, 10, 10)
  simp [extAxis, h1, h2]

theorem extents_meshFlatX_fst : (extents meshFlatX).1 = 0 := by
  have h1 : maxList [(0 : ℚ), 0] = 0 := by decide
  have h2 : minList [(0 : ℚ), 0] = 0 := by decide
  show extAxis [(0 : ℚ), 0] = 0
  simp [extAxis, h1, h2]

theorem extents_fst_nonneg (m : Mesh) : 0 ≤ (extents m).1 := extAxis_nonneg _

theorem extents_snd_nonneg (m : Mesh) : 0 ≤ (extents m).2.1 := extAxis_nonneg _

theorem extents_thd_nonneg (m : Mesh) : 0 ≤ (extents m).2.2 := extAxis_nonneg _

/-- A scaling log entry is never a centering entry. -/
theorem isCenterOp_of_isScaleOp {o : Op} (h : isScaleOp o = true) :
    isCenterOp o = false := by
  cases o <;> simp_all [isScaleOp, isCenterOp]

theorem isCenterOp_ground : isCenterOp Op.center_and_ground = true := rfl

/-- When the claim's priority rule selects some scaling source, the script's
fallthrough appends exactly one scaling entry. -/
theorem scriptAfterTarget_ops (opts : OptimizeOptions) (m : Mesh)
    (hs : claimedScalingFallback opts ≠ none) :
    ∃ o, isScaleOp o = true ∧ (scriptAfterTarget opts m).2 = [o] := by
  rcases hus : opts.uniform_scale with _ | u
  · rcases hbs : opts.print_bed_size with _ | bed
    · exfalso
      exact hs (by simp [claimedScalingFallback, hus, hbs])
    · exact ⟨Op.fit_to_bed (fit_to_print_bed m bed).2, rfl,
        by simp [scriptAfterTarget, hus, hbs]⟩
  · exact ⟨Op.uniform_scale u, rfl, by simp [scriptAfterTarget, hus]⟩

/-- Same for the whole script scaling stage. -/
theorem scriptScalingStage_ops (opts : OptimizeOptions) (m : Mesh)
    (hs : claimedScalingKind opts ≠ none) :
    ∃ o, isScaleOp o = true ∧ (scriptScalingStage opts m).2 = [o] := by
  rcases hts : opts.target_size with _ | t
  · have h2 : claimedScalingKind opts = claimedScalingFallback opts := by
      simp [claimedScalingKind, hts]
    rw [h2] at hs
    obtain ⟨o, ho, hops⟩ := scriptAfterTarget_ops opts m hs
    exact ⟨o, ho, by simp [scriptScalingStage, hts, hops]⟩
  · by_cases ha : anySpecified t = true
    · exact ⟨Op.scale_to_target (apply_target_size m t).2, rfl,
        by simp [scriptScalingStage, hts, ha]⟩
    · have h2 : claimedScalingKind opts = claimedScalingFallback opts := by
        simp [claimedScalingKind, hts, ha]
      rw [h2] at hs
      obtain ⟨o, ho, hops⟩ := scriptAfterTarget_ops opts m hs
      exact ⟨o, ho, by simp [scriptScalingStage, hts, ha, hops]⟩

/- ### C3 — order of scaling and centering -/

/-- C3 counterexample: with centering on and `uniform_scale: 2`, the cloud
function's pipeline logs `center_mesh` BEFORE `scale:2` — the scaling is not
applied before the centering as claimed. -/
theorem center_before_scale_ce :
    (mainPipeline ceOptsOrder meshUnit okRepair okRepair okRepair).2.1 =
      [Op.center_mesh, Op.scale 2] ∧
    ¬ scaleBeforeCenter
      (mainPipeline ceOptsOrder meshUnit okRepair okRepair okRepair).2.1 := by
  refine ⟨rfl, ?_⟩
  show ¬ scaleBeforeCenter [Op.center_mesh, Op.scale 2]
  decide

/-- C3 (amended): when centering is enabled, the cloud function's transform
section always logs the centering first (index 0), so scaling never precedes
centering there; the script's transform section, by contrast, logs its single
scaling entry strictly before `center_and_ground` whenever the priority rule
selects a scaling source. -/
theorem transform_order_script_vs_main (opts : OptimizeOptions) (m : Mesh)
    (hc : opts.center_mesh = true) :
    (mainTransformSection opts m).2.findIdx isCenterOp = 0 ∧
    ¬ scaleBeforeCenter (mainTransformSection opts m).2 ∧
    (claimedScalingKind opts ≠ none →
      scaleBeforeCenter (scriptTransformSection opts m).2) := by
  have h1 : (mainTransformSection opts m).2.findIdx isCenterOp = 0 := by
    simp [mainTransformSection, mainCenterStage, hc, List.findIdx_cons,
      isCenterOp]
  refine ⟨h1, ?_, ?_⟩
  · unfold scaleBeforeCenter
    rw [h1]
    omega
  · intro hs
    obtain ⟨o, ho, hops⟩ := scriptScalingStage_ops opts m hs
    have hlist : (scriptTransformSection opts m).2 = [o, Op.center_and_ground] := by
      simp [scriptTransformSection, scriptCenterStage, hc, hops]
    unfold scaleBeforeCenter
    rw [hlist]
    simp [List.findIdx_cons, ho, isCenterOp_of_isScaleOp ho, isCenterOp_ground]

/-- Witness for C3's amended statement: concrete options with centering and a
uniform scale. -/
theorem transform_order_script_vs_main_witness :
    (mainTransformSection ceOptsOrder meshUnit).2.findIdx isCenterOp = 0 ∧
    scaleBeforeCenter (scriptTransformSection ceOptsOrder meshUnit).2 :=
  ⟨(transform_order_script_vs_main ceOptsOrder meshUnit rfl).1,
   (transform_order_script_vs_main ceOptsOrder meshUnit rfl).2.2 (by decide)⟩

/- ### C10 — scaling priority -/

theorem mainApplyTarget_len (t : TargetSize) (m : Mesh) :
    (mainApplyTarget t m).2.length ≤ 1 := by
  simp only [mainApplyTarget]
  split_ifs <;> simp

theorem mainBedStage_len (ob : Option BedSize) (m : Mesh) :
    (mainBedStage ob m).2.length ≤ 1 := by
  rcases ob with _ | bed
  · simp [mainBedStage]
  · simp only [mainBedStage, mainFitBed]
    split_ifs <;> simp

theorem mainScalingStage_len (opts : OptimizeOptions) (m : Mesh) :
    (mainScalingStage opts m).2.length ≤ 1 := by
  rcases hts : opts.target_size with _ | t
  · rcases hus : opts.uniform_scale with _ | u
    · simp only [mainScalingStage, hts, hus]
      exact mainBedStage_len _ m
    · simp only [mainScalingStage, hts, hus]
      split_ifs
      · simp
      · exact mainBedStage_len _ m
  · simp only [mainScalingStage, hts]
    exact mainApplyTarget_len t m

theorem scriptScalingStage_len (opts : OptimizeOptions) (m : Mesh) :
    (scriptScalingStage opts m).2.length ≤ 1 := by
  have hafter : (scriptAfterTarget opts m).2.length ≤ 1 := by
    rcases hus : opts.uniform_scale with _ | u
    · rcases hbs : opts.print_bed_size with _ | bed
      · simp [scriptAfterTarget, hus, hbs]
      · simp [scriptAfterTarget, hus, hbs]
    · simp [scriptAfterTarget, hus]
  rcases hts : opts.target_size with _ | t
  · simp only [scriptScalingStage, hts]
    exact hafter
  · by_cases ha : anySpecified t = true
    · simp [scriptScalingStage, hts, ha]
    · simp only [scriptScalingStage, hts, ha, Bool.false_eq_true, if_false]
      exact hafter

theorem scriptAfterTarget_kind (opts : OptimizeOptions) (m : Mesh) :
    (match (scriptAfterTarget opts m).2 with
      | Op.scale_to_target _ :: _ => some ScaleKind.target
      | Op.uniform_scale _ :: _ => some ScaleKind.uniform
      | Op.fit_to_bed _ :: _ => some ScaleKind.bed
      | _ => none) = claimedScalingFallback opts := by
  rcases hus : opts.uniform_scale with _ | u
  · rcases hbs : opts.print_bed_size with _ | bed
    · simp [scriptAfterTarget, claimedScalingFallback, hus, hbs]
    · simp [scriptAfterTarget, claimedScalingFallback, hus, hbs]
  · simp [scriptAfterTarget, claimedScalingFallback, hus]

/-- C10 counterexample: with `target_size = {width: null, height: null,
depth: null}` (a truthy object with no non-null axis) and
`uniform_scale: 2`, the claim's priority rule selects the uniform scale, but
the cloud function's scaling stage takes the target branch, collects no
ratio, and applies NO scaling at all: `uniform_scale` is ignored without any
scaling being performed. -/
theorem target_all_null_blocks_uniform_ce :
    claimedScalingKind ceOptsPriority = some ScaleKind.uniform ∧
    (mainScalingStage ceOptsPriority meshTen).2 = [] ∧
    mainScalingOutcome ceOptsPriority meshTen = ScaleResult.noop := by
  exact ⟨by decide, rfl, rfl⟩

/-- C10 (amended): each pipeline applies at most one scaling operation per
invocation; the script's stage follows the claimed priority rule exactly
(its performed kind equals the rule's selection); but the cloud function
enters the target branch whenever the `target_size` object is truthy — even
with all axes null — in which case no scaling occurs and `uniform_scale` /
`print_bed_size` are ignored. -/
theorem scaling_priority (opts : OptimizeOptions) (m : Mesh) :
    (mainScalingStage opts m).2.length ≤ 1 ∧
    (scriptScalingStage opts m).2.length ≤ 1 ∧
    scriptScalingKind opts m = claimedScalingKind opts ∧
    (∀ t, opts.target_size = some t →
      mainScalingStage opts m = mainApplyTarget t m) := by
  refine ⟨mainScalingStage_len opts m, scriptScalingStage_len opts m, ?_, ?_⟩
  · rcases hts : opts.target_size with _ | t
    · have h2 : claimedScalingKind opts = claimedScalingFallback opts := by
        simp [claimedScalingKind, hts]
      rw [h2, scriptScalingKind]
      simp only [scriptScalingStage, hts]
      exact scriptAfterTarget_kind opts m
    · by_cases ha : anySpecified t = true
      · simp [scriptScalingKind, scriptScalingStage, claimedScalingKind,
          hts, ha]
      · have h2 : claimedScalingKind opts = claimedScalingFallback opts := by
          simp [claimedScalingKind, hts, ha]
        rw [h2, scriptScalingKind]
        simp only [scriptScalingStage, hts, ha, Bool.false_eq_true, if_false]
        exact scriptAfterTarget_kind opts m
  · intro t ht
    simp [mainScalingStage, ht]

/-- Witness for C10's amended statement at the width-only options. -/
theorem scaling_priority_witness :
    (mainScalingStage ceOptsWidth meshTen).2.length ≤ 1 ∧
    scriptScalingKind ceOptsWidth meshTen = claimedScalingKind ceOptsWidth ∧
    mainScalingStage ceOptsWidth meshTen = mainApplyTarget targetWidth100 meshTen :=
  ⟨(scaling_priority ceOptsWidth meshTen).1,
   (scaling_priority ceOptsWidth meshTen).2.2.1,
   (scaling_priority ceOptsWidth meshTen).2.2.2 targetWidth100 rfl⟩

/- ### C5 — zero-extent axes -/

/-- C5 counterexample: requesting a 100mm width on a mesh whose x-extent is
zero does NOT fail with a DegenerateExtent error — the cloud function's
scaling stage silently skips the axis and performs no scaling, leaving the
mesh untouched. -/
theorem zero_extent_no_error_ce :
    mainScalingStage ceOptsWidth meshFlatX = (meshFlatX, []) ∧
    mainScalingOutcome ceOptsWidth meshFlatX = ScaleResult.noop ∧
    mainScalingOutcome ceOptsWidth meshFlatX ≠
      ScaleResult.degenerateExtentFailure := by
  have hstage : mainScalingStage ceOptsWidth meshFlatX = (meshFlatX, []) := by
    simp [mainScalingStage, ceOptsWidth, mainApplyTarget, mainTargetScales,
      mainAxisScale, targetWidth100, extents_meshFlatX_fst]
  refine ⟨hstage, ?_, ?_⟩
  · simp [mainScalingOutcome, hstage]
  · simp [mainScalingOutcome, hstage]

/-- C5 (amended): in the cloud function's target branch an axis whose current
extent is zero contributes no scale ratio (first conjunct); when the only
requested axis has zero extent the whole stage is a silent no-op — the mesh
and prior results are preserved and no operation is logged (second
conjunct); and no input whatsoever makes the stage produce the spec's
DegenerateExtent failure, because the code has no such error path (third
conjunct). -/
theorem zero_extent_axis_skipped (opts : OptimizeOptions) (m : Mesh)
    (w : ℚ) (ht : opts.target_size = some ⟨some w, none, none⟩)
    (hx : (extents m).1 = 0) :
    (∀ ow : Option ℚ, mainAxisScale ow 0 = []) ∧
    mainScalingStage opts m = (m, []) ∧
    (∀ (opts2 : OptimizeOptions) (m2 : Mesh),
      mainScalingOutcome opts2 m2 ≠ ScaleResult.degenerateExtentFailure) := by
  refine ⟨?_, ?_, ?_⟩
  · intro ow
    rcases ow with _ | v
    · rfl
    · simp [mainAxisScale]
  · simp [mainScalingStage, ht, mainApplyTarget, mainTargetScales,
      mainAxisScale, hx]
  · intro opts2 m2
    rcases h : (mainScalingStage opts2 m2).2 with _ | ⟨o, rest⟩
    · simp [mainScalingOutcome, h]
    · cases o <;> simp [mainScalingOutcome, h]

/-- Witness for C5's amended statement: the width-only request on the flat
mesh. -/
theorem zero_extent_axis_skipped_witness :
    (∀ ow : Option ℚ, mainAxisScale ow 0 = []) ∧
    mainScalingStage ceOptsWidth meshFlatX = (meshFlatX, []) ∧
    (∀ (opts2 : OptimizeOptions) (m2 : Mesh),
      mainScalingOutcome opts2 m2 ≠ ScaleResult.degenerateExtentFailure) :=
  zero_extent_axis_skipped ceOptsWidth meshFlatX 100 rfl extents_meshFlatX_fst

/- ### C4 — fit-to-bed never increases extents -/

/-- C4 counterexample: the script's `fit_to_print_bed` has no `< 1.0` guard:
a 1mm mesh on a 200mm bed is scaled UP by 190, so the resulting x-extent
(190mm) exceeds the original (1mm) — the claim's "resulting extents ≤
original extents" fails. -/
theorem fit_bed_scales_up_ce :
    (fit_to_print_bed meshUnit bed200).2 = 190 ∧
    (extents (fit_to_print_bed meshUnit bed200).1).1 = 190 ∧
    ¬ (extents (fit_to_print_bed meshUnit bed200).1).1 ≤ (extents meshUnit).1 := by
  have hf : (fit_to_print_bed meshUnit bed200).2 = 190 := by
    show min ((200 : ℚ) / (extents meshUnit).1)
      (min ((200 : ℚ) / (extents meshUnit).2.1)
        ((200 : ℚ) / (extents meshUnit).2.2)) * (19 / 20) = 190
    rw [extents_meshUnit]
    norm_num
  have hm : (fit_to_print_bed meshUnit bed200).1 =
      scaleMesh ((fit_to_print_bed meshUnit bed200).2) meshUnit := rfl
  have hx : (extents (fit_to_print_bed meshUnit bed200).1).1 = 190 := by
    rw [hm, hf, extents_scaleMesh (by norm_num : (0 : ℚ) ≤ 190) meshUnit,
      extents_meshUnit]
    norm_num
  refine ⟨hf, hx, ?_⟩
  rw [hx, extents_meshUnit]
  norm_num

/-- C4 (amended): the cloud function's bed-fit branch (`main.py` lines
348-363) applies the factor only when it is < 1, so with nonnegative bed
dimensions no extent ever increases; when the factor is ≥ 1 the mesh is
returned unchanged with nothing logged. The script's `fit_to_print_bed`
applies its factor unconditionally and can scale a small mesh up (see the
counterexample), so the claim holds only for the cloud function's branch. -/
theorem main_fit_bed_never_grows (bed : BedSize) (m : Mesh)
    (hw : 0 ≤ bed.width) (hh : 0 ≤ bed.height) (hd : 0 ≤ bed.depth) :
    (extents (mainFitBed bed m).1).1 ≤ (extents m).1 ∧
    (extents (mainFitBed bed m).1).2.1 ≤ (extents m).2.1 ∧
    (extents (mainFitBed bed m).1).2.2 ≤ (extents m).2.2 ∧
    (¬ minList (mainBedScales bed (extents m)) < 1 →
      mainFitBed bed m = (m, [])) := by
  have hall : ∀ x ∈ mainBedScales bed (extents m), 0 ≤ x := by
    intro x hx
    simp only [mainBedScales, List.mem_cons, List.not_mem_nil, or_false] at hx
    rcases hx with h | h | h <;> subst h <;> split_ifs with hpos
    · exact div_nonneg (mul_nonneg hw (by norm_num)) hpos.le
    · norm_num
    · exact div_nonneg (mul_nonneg hh (by norm_num)) hpos.le
    · norm_num
    · exact div_nonneg (mul_nonneg hd (by norm_num)) hpos.le
    · norm_num
  have hmem : minList (mainBedScales bed (extents m)) ∈
      mainBedScales bed (extents m) := minList_mem (by simp [mainBedScales])
  have hf0 : 0 ≤ minList (mainBedScales bed (extents m)) :=
    hall _ hmem
  by_cases hlt : minList (mainBedScales bed (extents m)) < 1
  · have hres : mainFitBed bed m =
        (scaleMesh (minList (mainBedScales bed (extents m))) m,
          [Op.fit_bed (minList (mainBedScales bed (extents m)))]) := by
      simp only [mainFitBed, hlt, if_true]
    have hf1 : minList (mainBedScales bed (extents m)) ≤ 1 := hlt.le
    rw [hres]
    rw [extents_scaleMesh hf0 m]
    refine ⟨?_, ?_, ?_, ?_⟩
    · exact mul_le_of_le_one_left (extents_fst_nonneg m) hf1
    · exact mul_le_of_le_one_left (extents_snd_nonneg m) hf1
    · exact mul_le_of_le_one_left (extents_thd_nonneg m) hf1
    · intro hge; exact absurd hlt hge
  · have hres : mainFitBed bed m = (m, []) := by
      simp only [mainFitBed, hlt, if_false]
    rw [hres]
    exact ⟨le_refl _, le_refl _, le_refl _, fun _ => rfl⟩

/-- Witness for C4's amended statement: the 200mm bed on the unit mesh. -/
theorem main_fit_bed_never_grows_witness :
    (extents (mainFitBed bed200 meshUnit).1).1 ≤ (extents meshUnit).1 ∧
    (¬ minList (mainBedScales bed200 (extents meshUnit)) < 1 →
      mainFitBed bed200 meshUnit = (meshUnit, [])) :=
  ⟨(main_fit_bed_never_grows bed200 meshUnit (by norm_num [bed200])
      (by norm_num [bed200]) (by norm_num [bed200])).1,
   (main_fit_bed_never_grows bed200 meshUnit (by norm_num [bed200])
      (by norm_num [bed200]) (by norm_num [bed200])).2.2.2⟩

/- ### C8 — scale-to-target round trip -/

/-- With positive extents and positive targets, every collected ratio of the
script's target branch is positive. -/
theorem scriptTargetScales_pos (m : Mesh) (t : TargetSize)
    (hx : 0 < (extents m).1) (hy : 0 < (extents m).2.1)
    (hz : 0 < (extents m).2.2)
    (hw : ∀ w, t.width = some w → 0 < w)
    (hh : ∀ h, t.height = some h → 0 < h)
    (hd : ∀ d, t.depth = some d → 0 < d) :
    ∀ x ∈ scriptTargetScales t (extents m), 0 < x := by
  intro x hmem
  simp only [scriptTargetScales, List.mem_append] at hmem
  rcases hmem with (hA | hB) | hC
  · rcases hwv : t.width with _ | w
    · rw [hwv] at hA; simp [scriptAxisScale] at hA
    · rw [hwv] at hA; simp [scriptAxisScale] at hA
      rw [hA]
      exact div_pos (hw w hwv) hx
  · rcases hhv : t.height with _ | h
    · rw [hhv] at hB; simp [scriptAxisScale] at hB
    · rw [hhv] at hB; simp [scriptAxisScale] at hB
      rw [hB]
      exact div_pos (hh h hhv) hy
  · rcases hdv : t.depth with _ | d
    · rw [hdv] at hC; simp [scriptAxisScale] at hC
    · rw [hdv] at hC; simp [scriptAxisScale] at hC
      rw [hC]
      exact div_pos (hd d hdv) hz

/-- With at least one axis specified, the ratio list is nonempty. -/
theorem scriptTargetScales_ne_nil (t : TargetSize) (e : ℚ × ℚ × ℚ)
    (hspec : anySpecified t = true) : scriptTargetScales t e ≠ [] := by
  unfold anySpecified at hspec
  rcases hwv : t.width with _ | w
  · rcases hhv : t.height with _ | h
    · rcases hdv : t.depth with _ | d
      · rw [hwv, hhv, hdv] at hspec; simp at hspec
      · simp [scriptTargetScales, scriptAxisScale, hwv, hhv, hdv]
    · simp [scriptTargetScales, scriptAxisScale, hwv, hhv]
  · simp [scriptTargetScales, scriptAxisScale, hwv]

/-- C8 counterexample: on a 10mm cube, requesting width 100 AND height 50
yields the uniform factor 5 = min(10, 5); the resulting width extent is 50,
not the requested 100 — a specified axis does NOT reach its target when the
specified ratios differ. -/
theorem scale_to_target_two_axes_ce :
    ceTargetTwoAxes.width = some 100 ∧
    (extents (apply_target_size meshTen ceTargetTwoAxes).1).1 = 50 ∧
    (extents (apply_target_size meshTen ceTargetTwoAxes).1).1 ≠ 100 := by
  have hscales : scriptTargetScales ceTargetTwoAxes (extents meshTen) =
      [10, 5] := by
    rw [extents_meshTen]
    show [(100 : ℚ) / 10] ++ [(50 : ℚ) / 10] ++ [] = [10, 5]
    norm_num
  have hmin : minList [(10 : ℚ), 5] = 5 := by decide
  have happ : apply_target_size meshTen ceTargetTwoAxes =
      (scaleMesh 5 meshTen, 5) := by
    simp [apply_target_size, hscales, hmin]
  have hextr : (extents (apply_target_size meshTen ceTargetTwoAxes).1).1 = 50 := by
    rw [happ]
    show (extents (scaleMesh 5 meshTen)).1 = 50
    rw [extents_scaleMesh (by norm_num : (0 : ℚ) ≤ 5) meshTen, extents_meshTen]
    norm_num
  exact ⟨rfl, hextr, by rw [hextr]; norm_num⟩

/-- C8 (amended): with all-positive extents and positive targets on the
specified axes, `apply_target_size` applies the single uniform factor
f = min of the specified ratios to every vertex, so all three extents are
multiplied by f (unspecified axes included); each specified axis ends at or
below its target; and at least one specified axis (the one attaining the
minimum ratio) lands exactly on its target. Equality on EVERY specified axis
— as the claim states — holds only when the specified ratios coincide (see
the counterexample). -/
theorem apply_target_size_min_ratio (m : Mesh) (t : TargetSize)
    (hx : 0 < (extents m).1) (hy : 0 < (extents m).2.1)
    (hz : 0 < (extents m).2.2)
    (hw : ∀ w, t.width = some w → 0 < w)
    (hh : ∀ h, t.height = some h → 0 < h)
    (hd : ∀ d, t.depth = some d → 0 < d)
    (hspec : anySpecified t = true) :
    0 < (apply_target_size m t).2 ∧
    extents (apply_target_size m t).1 =
      ((apply_target_size m t).2 * (extents m).1,
       (apply_target_size m t).2 * (extents m).2.1,
       (apply_target_size m t).2 * (extents m).2.2) ∧
    (∀ w, t.width = some w →
      (extents (apply_target_size m t).1).1 ≤ w) ∧
    (∀ h, t.height = some h →
      (extents (apply_target_size m t).1).2.1 ≤ h) ∧
    (∀ d, t.depth = some d →
      (extents (apply_target_size m t).1).2.2 ≤ d) ∧
    ((∃ w, t.width = some w ∧ (extents (apply_target_size m t).1).1 = w) ∨
     (∃ h, t.height = some h ∧ (extents (apply_target_size m t).1).2.1 = h) ∨
     (∃ d, t.depth = some d ∧ (extents (apply_target_size m t).1).2.2 = d)) := by
  have hne : scriptTargetScales t (extents m) ≠ [] :=
    scriptTargetScales_ne_nil t (extents m) hspec
  have hres : apply_target_size m t =
      (scaleMesh (minList (scriptTargetScales t (extents m))) m,
       minList (scriptTargetScales t (extents m))) := by
    simp [apply_target_size, hne]
  have hposall := scriptTargetScales_pos m t hx hy hz hw hh hd
  have hfmem := minList_mem hne
  have hfpos : 0 < minList (scriptTargetScales t (extents m)) :=
    hposall _ hfmem
  have hext : extents (apply_target_size m t).1 =
      (minList (scriptTargetScales t (extents m)) * (extents m).1,
       minList (scriptTargetScales t (extents m)) * (extents m).2.1,
       minList (scriptTargetScales t (extents m)) * (extents m).2.2) := by
    rw [hres]
    exact extents_scaleMesh hfpos.le m
  refine ⟨by rw [hres]; exact hfpos, by rw [hext, hres], ?_, ?_, ?_, ?_⟩
  · intro w hwv
    have hmemw : w / (extents m).1 ∈ scriptTargetScales t (extents m) := by
      simp [scriptTargetScales, scriptAxisScale, hwv]
    have hle := minList_le_mem hmemw
    rw [hext]
    calc minList (scriptTargetScales t (extents m)) * (extents m).1
        ≤ w / (extents m).1 * (extents m).1 :=
          mul_le_mul_of_nonneg_right hle hx.le
      _ = w := div_mul_cancel₀ w hx.ne'
  · intro h hhv
    have hmemh : h / (extents m).2.1 ∈ scriptTargetScales t (extents m) := by
      simp [scriptTargetScales, scriptAxisScale, hhv]
    have hle := minList_le_mem hmemh
    rw [hext]
    calc minList (scriptTargetScales t (extents m)) * (extents m).2.1
        ≤ h / (extents m).2.1 * (extents m).2.1 :=
          mul_le_mul_of_nonneg_right hle hy.le
      _ = h := div_mul_cancel₀ h hy.ne'
  · intro d hdv
    have hmemd : d / (extents m).2.2 ∈ scriptTargetScales t (extents m) := by
      simp [scriptTargetScales, scriptAxisScale, hdv]
    have hle := minList_le_mem hmemd
    rw [hext]
    calc minList (scriptTargetScales t (extents m)) * (extents m).2.2
        ≤ d / (extents m).2.2 * (extents m).2.2 :=
          mul_le_mul_of_nonneg_right hle hz.le
      _ = d := div_mul_cancel₀ d hz.ne'
  · set f := minList (scriptTargetScales t (extents m)) with hfdef
    have hsplit : f ∈ scriptTargetScales t (extents m) := hfmem
    simp only [scriptTargetScales, List.mem_append] at hsplit
    rcases hsplit with (hA | hB) | hC
    · rcases hwv : t.width with _ | w
      · rw [hwv] at hA; simp [scriptAxisScale] at hA
      · rw [hwv] at hA
        simp only [scriptAxisScale, List.mem_singleton] at hA
        refine Or.inl ⟨w, rfl, ?_⟩
        rw [hext]
        show f * (extents m).1 = w
        rw [hA]
        exact div_mul_cancel₀ w hx.ne'
    · rcases hhv : t.height with _ | h
      · rw [hhv] at hB; simp [scriptAxisScale] at hB
      · rw [hhv] at hB
        simp only [scriptAxisScale, List.mem_singleton] at hB
        refine Or.inr (Or.inl ⟨h, rfl, ?_⟩)
        rw [hext]
        show f * (extents m).2.1 = h
        rw [hB]
        exact div_mul_cancel₀ h hy.ne'
    · rcases hdv : t.depth with _ | d
      · rw [hdv] at hC; simp [scriptAxisScale] at hC
      · rw [hdv] at hC
        simp only [scriptAxisScale, List.mem_singleton] at hC
        refine Or.inr (Or.inr ⟨d, rfl, ?_⟩)
        rw [hext]
        show f * (extents m).2.2 = d
        rw [hC]
        exact div_mul_cancel₀ d hz.ne'

/-- Witness for C8's amended statement: the width-only request on the 10mm
cube. -/
theorem apply_target_size_min_ratio_witness :
    0 < (apply_target_size meshTen targetWidth100).2 ∧
    ((∃ w, targetWidth100.width = some w ∧
        (extents (apply_target_size meshTen targetWidth100).1).1 = w) ∨
     (∃ h, targetWidth100.height = some h ∧
        (extents (apply_target_size meshTen targetWidth100).1).2.1 = h) ∨
     (∃ d, targetWidth100.depth = some d ∧
        (extents (apply_target_size meshTen targetWidth100).1).2.2 = d)) :=
  ⟨(apply_target_size_min_ratio meshTen targetWidth100
      (by rw [extents_meshTen]; norm_num) (by rw [extents_meshTen]; norm_num)
      (by rw [extents_meshTen]; norm_num)
      (by intro w hwv; simp [targetWidth100] at hwv; rw [← hwv]; norm_num)
      (by intro h hhv; simp [targetWidth100] at hhv)
      (by intro d hdv; simp [targetWidth100] at hdv)
      (by decide)).1,
   (apply_target_size_min_ratio meshTen targetWidth100
      (by rw [extents_meshTen]; norm_num) (by rw [extents_meshTen]; norm_num)
      (by rw [extents_meshTen]; norm_num)
      (by intro w hwv; simp [targetWidth100] at hwv; rw [← hwv]; norm_num)
      (by intro h hhv; simp [targetWidth100] at hhv)
      (by intro d hdv; simp [targetWidth100] at hdv)
      (by decide)).2.2.2.2.2⟩

end DreamForge
